import Mathlib

/-!
A shallow embedding of `src/meshing.py`, a small layer over the external
`gmsh` geometry/meshing engine that builds three boundary representations
(a rectangle, a rectangle split by an oblique fracture line, and a
rectangular prism) and tags entities with physical-group names.

The external `gmsh` module is modelled as explicit state passing: every
API call the python code makes (`addPoint`, `addLine`, `addCurveLoop`,
`addPlaneSurface`, `addSurfaceLoop`, `addVolume`, `addPhysicalGroup`,
`setPhysicalName`, `mesh.generate`, `write`, engine start and `finalize`)
records its effect in a `GmshState`.  Tag assignment mirrors gmsh: each
entity kind gets consecutive positive integer tags starting at 1, and
physical groups are numbered per dimension.  `mesh.generate` is the one
fallible call: whether the external engine succeeds is an oracle bit
`genOk` carried in the state, and a failing call raises
`GmshError.engineFailure`, which aborts the rest of the python function
exactly as a raised exception would (there is no try/finally in the
source).  Float arithmetic is idealised as real arithmetic; the python
`math` module is modelled by `math.radians` and `math.tan` below.  A
`pathlib.Path` argument is modelled by its stem (the python code uses
`filepath.stem` as the model name and `filepath.with_suffix(".msh")` as
the output name).
-/

/-- Error taxonomy of a builder call (spec §7).  The source never raises
`invalidParameter` or `degenerateTopology`; `engineFailure` models the
external engine failing during `gmsh.model.mesh.generate`. -/
inductive GmshError where
  | invalidParameter
  | engineFailure
  | degenerateTopology
deriving DecidableEq

/-- A gmsh OCC point: tag, 3D coordinates and the local mesh-size hint. -/
structure Point where
  tag : ℤ
  x : ℝ
  y : ℝ
  z : ℝ
  meshSize : ℝ

/-- A gmsh OCC line: tag and the tags of its start and end points. -/
structure Line where
  tag : ℤ
  a : ℤ
  b : ℤ
deriving DecidableEq

/-- A gmsh curve loop: tag and the signed tags of its lines (a negative
tag means the line is traversed backwards). -/
structure CurveLoop where
  tag : ℤ
  lines : List ℤ
deriving DecidableEq

/-- A gmsh plane surface: tag and the tags of its bounding curve loops. -/
structure Surface where
  tag : ℤ
  loops : List ℤ
deriving DecidableEq

/-- A gmsh surface loop: tag and the tags of its member surfaces. -/
structure SurfaceLoop where
  tag : ℤ
  surfaces : List ℤ
deriving DecidableEq

/-- A gmsh volume: tag and the tags of its bounding surface loops. -/
structure Volume where
  tag : ℤ
  shells : List ℤ
deriving DecidableEq

/-- A physical group: dimension, per-dimension tag, member entity tags and
the optional name set either at creation (`name=` keyword) or by
`setPhysicalName`. -/
structure PhysGroup where
  dim : ℕ
  tag : ℤ
  entities : List ℤ
  label : Option String
deriving DecidableEq

/-- The process-wide state of the modelled gmsh engine. -/
structure GmshState where
  engineOn : Bool
  modelName : String
  options : List (String × ℝ)
  points : List Point
  lines : List Line
  curveLoops : List CurveLoop
  surfaces : List Surface
  surfaceLoops : List SurfaceLoop
  volumes : List Volume
  physicals : List PhysGroup
  meshed : List ℕ
  files : List String
  genOk : Bool

/-- The monad of a builder call: state passing over `GmshState` with an
exception channel for errors raised by the engine (a first-order
presentation of `ExceptT GmshError (StateM GmshState)`). -/
def GmshM (α : Type) : Type := GmshState → Except GmshError α × GmshState

/-- Monadic return for `GmshM`. -/
def GmshM.pure (a : α) : GmshM α := fun s => (Except.ok a, s)

/-- Monadic bind for `GmshM`: an error short-circuits the continuation
but keeps the state reached so far (a python exception does not undo
prior gmsh calls). -/
def GmshM.bind (x : GmshM α) (f : α → GmshM β) : GmshM β := fun s =>
  match x s with
  | (Except.ok a, s1) => f a s1
  | (Except.error e, s1) => (Except.error e, s1)

instance : Monad GmshM where
  pure := GmshM.pure
  bind := GmshM.bind



/-- Models `gmsh.initialize()`: turns the process-wide engine on. -/
@[simp] def gmsh.startEngine : GmshM Unit := fun s =>
  (Except.ok (), { s with engineOn := true })

/-- Models `gmsh.finalize()`: turns the process-wide engine off. -/
@[simp] def gmsh.finalize : GmshM Unit := fun s =>
  (Except.ok (), { s with engineOn := false })

/-- Models `gmsh.option.setNumber(name, v)`. -/
@[simp] def gmsh.option.setNumber (nm : String) (v : ℝ) : GmshM Unit := fun s =>
  (Except.ok (), { s with options := s.options ++ [(nm, v)] })

/-- Models `gmsh.model.add(name)`. -/
@[simp] def gmsh.model.add (nm : String) : GmshM Unit := fun s =>
  (Except.ok (), { s with modelName := nm })

/-- Models `gmsh.model.occ.addPoint(x, y, z, meshSize)`; returns the new
point's tag (consecutive from 1). -/
@[simp] def gmsh.model.occ.addPoint (x y z ms : ℝ) : GmshM ℤ := fun s =>
  let t : ℤ := s.points.length + 1
  (Except.ok t, { s with points := s.points ++ [Point.mk t x y z ms] })

/-- Models `gmsh.model.occ.addLine(a, b)`. -/
@[simp] def gmsh.model.occ.addLine (a b : ℤ) : GmshM ℤ := fun s =>
  let t : ℤ := s.lines.length + 1
  (Except.ok t, { s with lines := s.lines ++ [Line.mk t a b] })

/-- Models `gmsh.model.occ.addCurveLoop(signedLineTags)`. -/
@[simp] def gmsh.model.occ.addCurveLoop (ls : List ℤ) : GmshM ℤ := fun s =>
  let t : ℤ := s.curveLoops.length + 1
  (Except.ok t, { s with curveLoops := s.curveLoops ++ [CurveLoop.mk t ls] })

/-- Models `gmsh.model.occ.addPlaneSurface(loopTags)`. -/
@[simp] def gmsh.model.occ.addPlaneSurface (cls : List ℤ) : GmshM ℤ := fun s =>
  let t : ℤ := s.surfaces.length + 1
  (Except.ok t, { s with surfaces := s.surfaces ++ [Surface.mk t cls] })

/-- Models `gmsh.model.occ.addSurfaceLoop(surfaceTags)`. -/
@[simp] def gmsh.model.occ.addSurfaceLoop (ss : List ℤ) : GmshM ℤ := fun s =>
  let t : ℤ := s.surfaceLoops.length + 1
  (Except.ok t, { s with surfaceLoops := s.surfaceLoops ++ [SurfaceLoop.mk t ss] })

/-- Models `gmsh.model.occ.addVolume(shellTags)`. -/
@[simp] def gmsh.model.occ.addVolume (sl : List ℤ) : GmshM ℤ := fun s =>
  let t : ℤ := s.volumes.length + 1
  (Except.ok t, { s with volumes := s.volumes ++ [Volume.mk t sl] })

/-- Models `gmsh.model.occ.synchronize()`: no effect on the entity lists
we track. -/
@[simp] def gmsh.model.occ.synchronize : GmshM Unit := fun s =>
  (Except.ok (), s)

/-- Models `gmsh.model.addPhysicalGroup(dim, entities)`; the new group's
tag counts groups of the same dimension, starting at 1. -/
@[simp] def gmsh.model.addPhysicalGroup (dim : ℕ) (ents : List ℤ) : GmshM ℤ := fun s =>
  let t : ℤ := (s.physicals.filter fun g => g.dim == dim).length + 1
  (Except.ok t, { s with physicals := s.physicals ++ [PhysGroup.mk dim t ents none] })

/-- Models `gmsh.model.addPhysicalGroup(dim, entities, name=nm)` (the
keyword-named form used by the fractured-rectangle builder). -/
@[simp] def gmsh.model.addPhysicalGroupNamed (dim : ℕ) (ents : List ℤ) (nm : String) :
    GmshM ℤ := fun s =>
  let t : ℤ := (s.physicals.filter fun g => g.dim == dim).length + 1
  (Except.ok t, { s with physicals := s.physicals ++ [PhysGroup.mk dim t ents (some nm)] })

/-- Models `gmsh.model.setPhysicalName(dim, tag, nm)`. -/
@[simp] def gmsh.model.setPhysicalName (dim : ℕ) (t : ℤ) (nm : String) : GmshM Unit := fun s =>
  (Except.ok (), { s with physicals := s.physicals.map fun g =>
      if g.dim == dim && g.tag == t then { g with label := some nm } else g })

/-- Models `gmsh.model.mesh.generate(dim)`: succeeds or raises an engine
failure according to the oracle bit `genOk`. -/
@[simp] def gmsh.model.mesh.generate (dim : ℕ) : GmshM Unit := fun s =>
  if s.genOk then (Except.ok (), { s with meshed := s.meshed ++ [dim] })
  else (Except.error GmshError.engineFailure, s)

/-- Models `gmsh.write(filename)`. -/
@[simp] def gmsh.write (fname : String) : GmshM Unit := fun s =>
  (Except.ok (), { s with files := s.files ++ [fname] })

/-- The state before a builder call: engine off, no entities, no files;
`ok` is the oracle saying whether mesh generation will succeed. -/
@[simp] def gmsh.initState (ok : Bool) : GmshState :=
  { engineOn := false, modelName := "", options := [], points := [],
    lines := [], curveLoops := [], surfaces := [], surfaceLoops := [],
    volumes := [], physicals := [], meshed := [], files := [], genOk := ok }

/-- Models `math.radians(d)` from the python standard library. -/
noncomputable def math.radians (d : ℝ) : ℝ := d * (Real.pi / 180)

/-- Models `math.tan(x)` from the python standard library (idealised as
the real tangent). -/
noncomputable def math.tan (x : ℝ) : ℝ := Real.tan x

/-- Translation of `create_rectangle_mesh` (src/meshing.py, lines 5-46). -/
noncomputable def create_rectangle_mesh (filepath : String)
    (width height mesh_size center_z : ℝ) : GmshM Unit := do
  gmsh.startEngine
  gmsh.option.setNumber "General.Verbosity" 0
  gmsh.option.setNumber "Mesh.CharacteristicLengthMin" mesh_size
  gmsh.option.setNumber "Mesh.CharacteristicLengthMax" mesh_size
  gmsh.model.add filepath
  let z := center_z
  let p1 ← gmsh.model.occ.addPoint 0 (z + height/2) 0 mesh_size
  let p2 ← gmsh.model.occ.addPoint width (z + height/2) 0 mesh_size
  let p3 ← gmsh.model.occ.addPoint width (z - height/2) 0 mesh_size
  let p4 ← gmsh.model.occ.addPoint 0 (z - height/2) 0 mesh_size
  gmsh.model.occ.synchronize
  let l1 ← gmsh.model.occ.addLine p1 p2
  let l2 ← gmsh.model.occ.addLine p2 p3
  let l3 ← gmsh.model.occ.addLine p3 p4
  let l4 ← gmsh.model.occ.addLine p4 p1
  gmsh.model.occ.synchronize
  let cl ← gmsh.model.occ.addCurveLoop [l1, l2, l3, l4]
  let surf ← gmsh.model.occ.addPlaneSurface [cl]
  gmsh.model.occ.synchronize
  let pg_domain ← gmsh.model.addPhysicalGroup 2 [surf]
  gmsh.model.setPhysicalName 2 pg_domain "domain"
  let bcs : List (String × ℤ) := [("top", l1), ("right", l2), ("bottom", l3), ("left", l4)]
  for bc in bcs do
    let pg ← gmsh.model.addPhysicalGroup 1 [bc.2]
    gmsh.model.setPhysicalName 1 pg bc.1
  gmsh.model.mesh.generate 2
  gmsh.write (filepath ++ ".msh")
  gmsh.finalize

/-- Running the rectangle builder from a fresh engine state. -/
noncomputable def runRect (fp : String) (w h s cz : ℝ) (ok : Bool) :
    Except GmshError Unit × GmshState :=
  create_rectangle_mesh fp w h s cz (gmsh.initState ok)


/-- Translation of `create_rectangle_frac_mesh` (src/meshing.py, lines
48-116).  The python signature has the default `mode="domain"`; the mode
is passed explicitly here. -/
noncomputable def create_rectangle_frac_mesh (filepath : String)
    (width height mesh_size center_z : ℝ) (mode : String) : GmshM Unit := do
  gmsh.startEngine
  gmsh.option.setNumber "General.Verbosity" 0
  gmsh.option.setNumber "Mesh.CharacteristicLengthMin" mesh_size
  gmsh.option.setNumber "Mesh.CharacteristicLengthMax" mesh_size
  gmsh.model.add filepath
  let z := center_z
  let p1 ← gmsh.model.occ.addPoint 0 (z + height / 2) 0 mesh_size
  let p2 ← gmsh.model.occ.addPoint width (z + height / 2) 0 mesh_size
  let p3 ← gmsh.model.occ.addPoint width (z - height / 2) 0 mesh_size
  let p4 ← gmsh.model.occ.addPoint 0 (z - height / 2) 0 mesh_size
  let angle_rad := math.radians 30
  let p5_x : ℝ := 0
  let p6_x := width
  let p5_y := z - width * math.tan angle_rad / 2
  let p6_y := z + width * math.tan angle_rad / 2
  let p5 ← gmsh.model.occ.addPoint p5_x p5_y 0 mesh_size
  let p6 ← gmsh.model.occ.addPoint p6_x p6_y 0 mesh_size
  gmsh.model.occ.synchronize
  let l1 ← gmsh.model.occ.addLine p2 p1
  let l2 ← gmsh.model.occ.addLine p1 p5
  let l3 ← gmsh.model.occ.addLine p5 p4
  let l4 ← gmsh.model.occ.addLine p4 p3
  let l5 ← gmsh.model.occ.addLine p3 p6
  let l6 ← gmsh.model.occ.addLine p6 p2
  let l7 ← gmsh.model.occ.addLine p6 p5
  gmsh.model.occ.synchronize
  let cl1 ← gmsh.model.occ.addCurveLoop [l1, l2, -l7, l6]
  let surf1 ← gmsh.model.occ.addPlaneSurface [cl1]
  let cl2 ← gmsh.model.occ.addCurveLoop [l4, l5, l7, l3]
  let surf2 ← gmsh.model.occ.addPlaneSurface [cl2]
  gmsh.model.occ.synchronize
  if mode = "BC" then
    let bcs : List (String × ℤ) := [("top", l1), ("bottom", l4)]
    for bc in bcs do
      let pg ← gmsh.model.addPhysicalGroup 1 [bc.2]
      gmsh.model.setPhysicalName 1 pg bc.1
    let _ ← gmsh.model.addPhysicalGroupNamed 1 [l5, l6] "right"
    let _ ← gmsh.model.addPhysicalGroupNamed 1 [l2, l3] "left"
    let _ ← gmsh.model.addPhysicalGroupNamed 0 [p4] "p4"
  else if mode = "domain" then
    let _ ← gmsh.model.addPhysicalGroupNamed 2 [surf1] "top_surf"
    let _ ← gmsh.model.addPhysicalGroupNamed 2 [surf2] "bot_surf"
    let _ ← gmsh.model.addPhysicalGroupNamed 1 [l7] "fracture"
  gmsh.model.mesh.generate 2
  gmsh.write (filepath ++ ".msh")
  gmsh.finalize

/-- Running the fractured-rectangle builder from a fresh engine state. -/
noncomputable def runFrac (fp : String) (w h s cz : ℝ) (mode : String) (ok : Bool) :
    Except GmshError Unit × GmshState :=
  create_rectangle_frac_mesh fp w h s cz mode (gmsh.initState ok)

/-- Translation of `create_cube_mesh` (src/meshing.py, lines 119-208).
The python list comprehension building `pts` is rendered with
`List.mapM`. -/
noncomputable def create_cube_mesh (filepath : String)
    (width height thickness mesh_size center_z : ℝ) : GmshM Unit := do
  gmsh.startEngine
  gmsh.option.setNumber "General.Verbosity" 0
  gmsh.option.setNumber "Mesh.CharacteristicLengthMin" mesh_size
  gmsh.option.setNumber "Mesh.CharacteristicLengthMax" mesh_size
  gmsh.model.add filepath
  let z0 := center_z - thickness/2
  let z1 := center_z + thickness/2
  let coords : List (ℝ × ℝ × ℝ) := [
    (0, 0, z0),
    (width, 0, z0),
    (width, height, z0),
    (0, height, z0),
    (0, 0, z1),
    (width, 0, z1),
    (width, height, z1),
    (0, height, z1)]
  let pts ← coords.mapM fun c => gmsh.model.occ.addPoint c.1 c.2.1 c.2.2 mesh_size
  gmsh.model.occ.synchronize
  let l1 ← gmsh.model.occ.addLine pts[0]! pts[1]!
  let l2 ← gmsh.model.occ.addLine pts[1]! pts[2]!
  let l3 ← gmsh.model.occ.addLine pts[2]! pts[3]!
  let l4 ← gmsh.model.occ.addLine pts[3]! pts[0]!
  let l5 ← gmsh.model.occ.addLine pts[4]! pts[5]!
  let l6 ← gmsh.model.occ.addLine pts[5]! pts[6]!
  let l7 ← gmsh.model.occ.addLine pts[6]! pts[7]!
  let l8 ← gmsh.model.occ.addLine pts[7]! pts[4]!
  let l9 ← gmsh.model.occ.addLine pts[0]! pts[4]!
  let l10 ← gmsh.model.occ.addLine pts[1]! pts[5]!
  let l11 ← gmsh.model.occ.addLine pts[2]! pts[6]!
  let l12 ← gmsh.model.occ.addLine pts[3]! pts[7]!
  gmsh.model.occ.synchronize
  let cl_bot ← gmsh.model.occ.addCurveLoop [l1, l2, l3, l4]
  let cl_top ← gmsh.model.occ.addCurveLoop [l5, l6, l7, l8]
  let cl_front ← gmsh.model.occ.addCurveLoop [l1, l10, -l5, -l9]
  let cl_back ← gmsh.model.occ.addCurveLoop [-l3, l11, l7, -l12]
  let cl_left ← gmsh.model.occ.addCurveLoop [l9, -l8, -l12, l4]
  let cl_right ← gmsh.model.occ.addCurveLoop [l10, l6, -l11, -l2]
  gmsh.model.occ.synchronize
  let s_bot ← gmsh.model.occ.addPlaneSurface [cl_bot]
  let s_top ← gmsh.model.occ.addPlaneSurface [cl_top]
  let s_front ← gmsh.model.occ.addPlaneSurface [cl_front]
  let s_back ← gmsh.model.occ.addPlaneSurface [cl_back]
  let s_left ← gmsh.model.occ.addPlaneSurface [cl_left]
  let s_right ← gmsh.model.occ.addPlaneSurface [cl_right]
  gmsh.model.occ.synchronize
  let sl ← gmsh.model.occ.addSurfaceLoop [s_bot, s_top, s_front, s_back, s_left, s_right]
  let vol ← gmsh.model.occ.addVolume [sl]
  gmsh.model.occ.synchronize
  let pg0 ← gmsh.model.addPhysicalGroup 0 pts
  gmsh.model.setPhysicalName 0 pg0 "points"
  let all_edges := [l1, l2, l3, l4, l5, l6, l7, l8, l9, l10, l11, l12]
  let pg1 ← gmsh.model.addPhysicalGroup 1 all_edges
  gmsh.model.setPhysicalName 1 pg1 "edges"
  let face_map : List (String × ℤ) := [
    ("bottom", s_bot), ("top", s_top), ("front", s_front),
    ("back", s_back), ("left", s_left), ("right", s_right)]
  for fm in face_map do
    let pg ← gmsh.model.addPhysicalGroup 2 [fm.2]
    gmsh.model.setPhysicalName 2 pg fm.1
  let pg3 ← gmsh.model.addPhysicalGroup 3 [vol]
  gmsh.model.setPhysicalName 3 pg3 "volume"
  gmsh.model.mesh.generate 3
  gmsh.write (filepath ++ ".msh")
  gmsh.finalize

/-- Running the prism (cube) builder from a fresh engine state. -/
noncomputable def runCube (fp : String) (w h t s cz : ℝ) (ok : Bool) :
    Except GmshError Unit × GmshState :=
  create_cube_mesh fp w h t s cz (gmsh.initState ok)


/-- The point with the given tag, if any (tags are unique by
construction). -/
def findPoint (ps : List Point) (t : ℤ) : Option Point :=
  match ps with
  | [] => none
  | p :: rest => if p.tag = t then some p else findPoint rest t

/-- The point with the given tag in a gmsh state. -/
def GmshState.pointAt (s : GmshState) (t : ℤ) : Option Point :=
  findPoint s.points t

/-- The line with the given tag, if any. -/
def findLine (ls : List Line) (t : ℤ) : Option Line :=
  match ls with
  | [] => none
  | L :: rest => if L.tag = t then some L else findLine rest t

/-- The oriented endpoints (start, end) of a signed line reference: a
positive tag traverses the line forwards, a negative tag backwards. -/
def lineEnds (ls : List Line) (t : ℤ) : Option (ℤ × ℤ) :=
  if 0 < t then (findLine ls t).map fun L => (L.a, L.b)
  else (findLine ls (-t)).map fun L => (L.b, L.a)

/-- Checks that consecutive oriented segments chain together (each
segment starts where the previous one ended) and that the last segment
returns to `start`. -/
def chainFrom (last : ℤ) (segs : List (ℤ × ℤ)) (start : ℤ) : Bool :=
  match segs with
  | [] => last == start
  | (a, b) :: rest => last == a && chainFrom b rest start

/-- A list of oriented segments forms a single closed chain. -/
def chainClosed (segs : List (ℤ × ℤ)) : Bool :=
  match segs with
  | [] => true
  | (a, b) :: rest => chainFrom b rest a

/-- Topological closure of a curve loop with respect to a line table:
traversing the signed edges in order, the end point of each edge is the
start point of the next, and the last returns to the first. -/
def loopCloses (ls : List Line) (L : CurveLoop) : Bool :=
  match L.lines.mapM (lineEnds ls) with
  | some segs => chainClosed segs
  | none => false

/-- The signs (`1` forwards, `-1` backwards) with which a curve loop
references edge `e`, in traversal order. -/
def loopSigns (L : CurveLoop) (e : ℤ) : List ℤ :=
  L.lines.filterMap fun t =>
    if t = e then some 1 else if t = -e then some (-1) else none

/-- All signs with which edge `e` is referenced across a list of curve
loops, in loop order. -/
def shellSigns (loops : List CurveLoop) (e : ℤ) : List ℤ :=
  (loops.map fun L => loopSigns L e).flatten

/-- The curve loops that reference edge `e` (with either sign). -/
def loopsUsing (loops : List CurveLoop) (e : ℤ) : List CurveLoop :=
  loops.filter fun L => !(loopSigns L e).isEmpty

/-- The closed-shell property at edge `e`: `e` is referenced by exactly
two of the loops, once with each sign. -/
def closedShellAt (loops : List CurveLoop) (e : ℤ) : Prop :=
  (loopsUsing loops e).length = 2 ∧
    (shellSigns loops e = [1, -1] ∨ shellSigns loops e = [-1, 1])

/-- The closed-shell property for a whole edge list. -/
def closedShell (loops : List CurveLoop) (edges : List ℤ) : Prop :=
  ∀ e ∈ edges, closedShellAt loops e

instance (loops : List CurveLoop) (e : ℤ) : Decidable (closedShellAt loops e) :=
  decidable_of_iff ((loopsUsing loops e).length = 2 ∧
    (shellSigns loops e = [1, -1] ∨ shellSigns loops e = [-1, 1])) Iff.rfl

instance (loops : List CurveLoop) (edges : List ℤ) : Decidable (closedShell loops edges) :=
  decidable_of_iff (∀ e ∈ edges, closedShellAt loops e) Iff.rfl


theorem GmshM.bind_apply (x : GmshM α) (f : α → GmshM β) (s : GmshState) :
    (x >>= f) s = (match x s with
      | (Except.ok a, s1) => f a s1
      | (Except.error e, s1) => (Except.error e, s1)) := rfl

theorem GmshM.pure_apply (a : α) (s : GmshState) :
    (Pure.pure a : GmshM α) s = (Except.ok a, s) := rfl

theorem GmshM.map_apply (f : α → β) (x : GmshM α) (s : GmshState) :
    (f <$> x) s = (match x s with
      | (Except.ok a, s1) => (Except.ok (f a), s1)
      | (Except.error e, s1) => (Except.error e, s1)) := rfl

attribute [simp] GmshM.bind_apply GmshM.pure_apply GmshM.map_apply

theorem mapMLoop_cons [Monad m] (f : α → m β) (a : α) (l : List α) (acc : List β) :
    List.mapM.loop f (a :: l) acc = f a >>= fun b => List.mapM.loop f l (b :: acc) := rfl

theorem mapMLoop_nil [Monad m] (f : α → m β) (acc : List β) :
    List.mapM.loop f [] acc = pure acc.reverse := rfl

attribute [simp] mapMLoop_cons mapMLoop_nil


theorem mapM_eq_loop [Monad m] (f : α → m β) (l : List α) :
    List.mapM f l = List.mapM.loop f l [] := rfl

attribute [simp] mapM_eq_loop

set_option maxHeartbeats 1000000 in
/-- Full evaluation of the rectangle builder when the engine succeeds. -/
theorem runRect_ok (fp : String) (w h s cz : ℝ) :
    runRect fp w h s cz true = (Except.ok (),
      { engineOn := false, modelName := fp,
        options := [("General.Verbosity", 0), ("Mesh.CharacteristicLengthMin", s),
          ("Mesh.CharacteristicLengthMax", s)],
        points := [Point.mk 1 0 (cz + h / 2) 0 s, Point.mk 2 w (cz + h / 2) 0 s,
          Point.mk 3 w (cz - h / 2) 0 s, Point.mk 4 0 (cz - h / 2) 0 s],
        lines := [Line.mk 1 1 2, Line.mk 2 2 3, Line.mk 3 3 4, Line.mk 4 4 1],
        curveLoops := [CurveLoop.mk 1 [1, 2, 3, 4]],
        surfaces := [Surface.mk 1 [1]],
        surfaceLoops := [], volumes := [],
        physicals := [PhysGroup.mk 2 1 [1] (some "domain"),
          PhysGroup.mk 1 1 [1] (some "top"), PhysGroup.mk 1 2 [2] (some "right"),
          PhysGroup.mk 1 3 [3] (some "bottom"), PhysGroup.mk 1 4 [4] (some "left")],
        meshed := [2], files := [fp ++ ".msh"], genOk := true }) := by
  simp [runRect, create_rectangle_mesh]

set_option maxHeartbeats 1000000 in
/-- Full evaluation of the rectangle builder when the engine fails during
mesh generation: the error propagates, no file is written, and
`gmsh.finalize` is never reached (the engine stays on). -/
theorem runRect_fail (fp : String) (w h s cz : ℝ) :
    runRect fp w h s cz false = (Except.error GmshError.engineFailure,
      { engineOn := true, modelName := fp,
        options := [("General.Verbosity", 0), ("Mesh.CharacteristicLengthMin", s),
          ("Mesh.CharacteristicLengthMax", s)],
        points := [Point.mk 1 0 (cz + h / 2) 0 s, Point.mk 2 w (cz + h / 2) 0 s,
          Point.mk 3 w (cz - h / 2) 0 s, Point.mk 4 0 (cz - h / 2) 0 s],
        lines := [Line.mk 1 1 2, Line.mk 2 2 3, Line.mk 3 3 4, Line.mk 4 4 1],
        curveLoops := [CurveLoop.mk 1 [1, 2, 3, 4]],
        surfaces := [Surface.mk 1 [1]],
        surfaceLoops := [], volumes := [],
        physicals := [PhysGroup.mk 2 1 [1] (some "domain"),
          PhysGroup.mk 1 1 [1] (some "top"), PhysGroup.mk 1 2 [2] (some "right"),
          PhysGroup.mk 1 3 [3] (some "bottom"), PhysGroup.mk 1 4 [4] (some "left")],
        meshed := [], files := [], genOk := false }) := by
  simp [runRect, create_rectangle_mesh]

set_option maxHeartbeats 1000000 in
/-- Full evaluation of the fractured-rectangle builder in `"domain"` mode
when the engine succeeds. -/
theorem runFrac_domain_ok (fp : String) (w h s cz : ℝ) :
    runFrac fp w h s cz "domain" true = (Except.ok (),
      { engineOn := false, modelName := fp,
        options := [("General.Verbosity", 0), ("Mesh.CharacteristicLengthMin", s),
          ("Mesh.CharacteristicLengthMax", s)],
        points := [Point.mk 1 0 (cz + h / 2) 0 s, Point.mk 2 w (cz + h / 2) 0 s,
          Point.mk 3 w (cz - h / 2) 0 s, Point.mk 4 0 (cz - h / 2) 0 s,
          Point.mk 5 0 (cz - w * math.tan (math.radians 30) / 2) 0 s,
          Point.mk 6 w (cz + w * math.tan (math.radians 30) / 2) 0 s],
        lines := [Line.mk 1 2 1, Line.mk 2 1 5, Line.mk 3 5 4, Line.mk 4 4 3,
          Line.mk 5 3 6, Line.mk 6 6 2, Line.mk 7 6 5],
        curveLoops := [CurveLoop.mk 1 [1, 2, -7, 6], CurveLoop.mk 2 [4, 5, 7, 3]],
        surfaces := [Surface.mk 1 [1], Surface.mk 2 [2]],
        surfaceLoops := [], volumes := [],
        physicals := [PhysGroup.mk 2 1 [1] (some "top_surf"),
          PhysGroup.mk 2 2 [2] (some "bot_surf"),
          PhysGroup.mk 1 1 [7] (some "fracture")],
        meshed := [2], files := [fp ++ ".msh"], genOk := true }) := by
  simp [runFrac, create_rectangle_frac_mesh]

set_option maxHeartbeats 1000000 in
/-- Full evaluation of the fractured-rectangle builder in `"BC"` mode when
the engine succeeds. -/
theorem runFrac_BC_ok (fp : String) (w h s cz : ℝ) :
    runFrac fp w h s cz "BC" true = (Except.ok (),
      { engineOn := false, modelName := fp,
        options := [("General.Verbosity", 0), ("Mesh.CharacteristicLengthMin", s),
          ("Mesh.CharacteristicLengthMax", s)],
        points := [Point.mk 1 0 (cz + h / 2) 0 s, Point.mk 2 w (cz + h / 2) 0 s,
          Point.mk 3 w (cz - h / 2) 0 s, Point.mk 4 0 (cz - h / 2) 0 s,
          Point.mk 5 0 (cz - w * math.tan (math.radians 30) / 2) 0 s,
          Point.mk 6 w (cz + w * math.tan (math.radians 30) / 2) 0 s],
        lines := [Line.mk 1 2 1, Line.mk 2 1 5, Line.mk 3 5 4, Line.mk 4 4 3,
          Line.mk 5 3 6, Line.mk 6 6 2, Line.mk 7 6 5],
        curveLoops := [CurveLoop.mk 1 [1, 2, -7, 6], CurveLoop.mk 2 [4, 5, 7, 3]],
        surfaces := [Surface.mk 1 [1], Surface.mk 2 [2]],
        surfaceLoops := [], volumes := [],
        physicals := [PhysGroup.mk 1 1 [1] (some "top"),
          PhysGroup.mk 1 2 [4] (some "bottom"),
          PhysGroup.mk 1 3 [5, 6] (some "right"),
          PhysGroup.mk 1 4 [2, 3] (some "left"),
          PhysGroup.mk 0 1 [4] (some "p4")],
        meshed := [2], files := [fp ++ ".msh"], genOk := true }) := by
  simp [runFrac, create_rectangle_frac_mesh]

set_option maxHeartbeats 1000000 in
/-- Full evaluation of the fractured-rectangle builder for any mode other
than `"BC"` and `"domain"`, when the engine succeeds: the geometry is
built and the mesh written, but no physical group is created. -/
theorem runFrac_other_ok (fp : String) (w h s cz : ℝ) (mode : String)
    (hBC : mode ≠ "BC") (hdom : mode ≠ "domain") :
    runFrac fp w h s cz mode true = (Except.ok (),
      { engineOn := false, modelName := fp,
        options := [("General.Verbosity", 0), ("Mesh.CharacteristicLengthMin", s),
          ("Mesh.CharacteristicLengthMax", s)],
        points := [Point.mk 1 0 (cz + h / 2) 0 s, Point.mk 2 w (cz + h / 2) 0 s,
          Point.mk 3 w (cz - h / 2) 0 s, Point.mk 4 0 (cz - h / 2) 0 s,
          Point.mk 5 0 (cz - w * math.tan (math.radians 30) / 2) 0 s,
          Point.mk 6 w (cz + w * math.tan (math.radians 30) / 2) 0 s],
        lines := [Line.mk 1 2 1, Line.mk 2 1 5, Line.mk 3 5 4, Line.mk 4 4 3,
          Line.mk 5 3 6, Line.mk 6 6 2, Line.mk 7 6 5],
        curveLoops := [CurveLoop.mk 1 [1, 2, -7, 6], CurveLoop.mk 2 [4, 5, 7, 3]],
        surfaces := [Surface.mk 1 [1], Surface.mk 2 [2]],
        surfaceLoops := [], volumes := [],
        physicals := [],
        meshed := [2], files := [fp ++ ".msh"], genOk := true }) := by
  simp [runFrac, create_rectangle_frac_mesh, hBC, hdom]

set_option maxHeartbeats 4000000 in
/-- Full evaluation of the prism (cube) builder when the engine
succeeds. -/
theorem runCube_ok (fp : String) (w h t s cz : ℝ) :
    runCube fp w h t s cz true = (Except.ok (),
      { engineOn := false, modelName := fp,
        options := [("General.Verbosity", 0), ("Mesh.CharacteristicLengthMin", s),
          ("Mesh.CharacteristicLengthMax", s)],
        points := [Point.mk 1 0 0 (cz - t / 2) s, Point.mk 2 w 0 (cz - t / 2) s,
          Point.mk 3 w h (cz - t / 2) s, Point.mk 4 0 h (cz - t / 2) s,
          Point.mk 5 0 0 (cz + t / 2) s, Point.mk 6 w 0 (cz + t / 2) s,
          Point.mk 7 w h (cz + t / 2) s, Point.mk 8 0 h (cz + t / 2) s],
        lines := [Line.mk 1 1 2, Line.mk 2 2 3, Line.mk 3 3 4, Line.mk 4 4 1,
          Line.mk 5 5 6, Line.mk 6 6 7, Line.mk 7 7 8, Line.mk 8 8 5,
          Line.mk 9 1 5, Line.mk 10 2 6, Line.mk 11 3 7, Line.mk 12 4 8],
        curveLoops := [CurveLoop.mk 1 [1, 2, 3, 4], CurveLoop.mk 2 [5, 6, 7, 8],
          CurveLoop.mk 3 [1, 10, -5, -9], CurveLoop.mk 4 [-3, 11, 7, -12],
          CurveLoop.mk 5 [9, -8, -12, 4], CurveLoop.mk 6 [10, 6, -11, -2]],
        surfaces := [Surface.mk 1 [1], Surface.mk 2 [2], Surface.mk 3 [3],
          Surface.mk 4 [4], Surface.mk 5 [5], Surface.mk 6 [6]],
        surfaceLoops := [SurfaceLoop.mk 1 [1, 2, 3, 4, 5, 6]],
        volumes := [Volume.mk 1 [1]],
        physicals := [PhysGroup.mk 0 1 [1, 2, 3, 4, 5, 6, 7, 8] (some "points"),
          PhysGroup.mk 1 1 [1, 2, 3, 4, 5, 6, 7, 8, 9, 10, 11, 12] (some "edges"),
          PhysGroup.mk 2 1 [1] (some "bottom"), PhysGroup.mk 2 2 [2] (some "top"),
          PhysGroup.mk 2 3 [3] (some "front"), PhysGroup.mk 2 4 [4] (some "back"),
          PhysGroup.mk 2 5 [5] (some "left"), PhysGroup.mk 2 6 [6] (some "right"),
          PhysGroup.mk 3 1 [1] (some "volume")],
        meshed := [3], files := [fp ++ ".msh"], genOk := true }) := by
  simp [runCube, create_cube_mesh]

set_option maxHeartbeats 4000000 in
/-- Full evaluation of the prism (cube) builder when the engine fails
during mesh generation: the error propagates, no file is written, and
`gmsh.finalize` is never reached (the engine stays on). -/
theorem runCube_fail (fp : String) (w h t s cz : ℝ) :
    runCube fp w h t s cz false = (Except.error GmshError.engineFailure,
      { engineOn := true, modelName := fp,
        options := [("General.Verbosity", 0), ("Mesh.CharacteristicLengthMin", s),
          ("Mesh.CharacteristicLengthMax", s)],
        points := [Point.mk 1 0 0 (cz - t / 2) s, Point.mk 2 w 0 (cz - t / 2) s,
          Point.mk 3 w h (cz - t / 2) s, Point.mk 4 0 h (cz - t / 2) s,
          Point.mk 5 0 0 (cz + t / 2) s, Point.mk 6 w 0 (cz + t / 2) s,
          Point.mk 7 w h (cz + t / 2) s, Point.mk 8 0 h (cz + t / 2) s],
        lines := [Line.mk 1 1 2, Line.mk 2 2 3, Line.mk 3 3 4, Line.mk 4 4 1,
          Line.mk 5 5 6, Line.mk 6 6 7, Line.mk 7 7 8, Line.mk 8 8 5,
          Line.mk 9 1 5, Line.mk 10 2 6, Line.mk 11 3 7, Line.mk 12 4 8],
        curveLoops := [CurveLoop.mk 1 [1, 2, 3, 4], CurveLoop.mk 2 [5, 6, 7, 8],
          CurveLoop.mk 3 [1, 10, -5, -9], CurveLoop.mk 4 [-3, 11, 7, -12],
          CurveLoop.mk 5 [9, -8, -12, 4], CurveLoop.mk 6 [10, 6, -11, -2]],
        surfaces := [Surface.mk 1 [1], Surface.mk 2 [2], Surface.mk 3 [3],
          Surface.mk 4 [4], Surface.mk 5 [5], Surface.mk 6 [6]],
        surfaceLoops := [SurfaceLoop.mk 1 [1, 2, 3, 4, 5, 6]],
        volumes := [Volume.mk 1 [1]],
        physicals := [PhysGroup.mk 0 1 [1, 2, 3, 4, 5, 6, 7, 8] (some "points"),
          PhysGroup.mk 1 1 [1, 2, 3, 4, 5, 6, 7, 8, 9, 10, 11, 12] (some "edges"),
          PhysGroup.mk 2 1 [1] (some "bottom"), PhysGroup.mk 2 2 [2] (some "top"),
          PhysGroup.mk 2 3 [3] (some "front"), PhysGroup.mk 2 4 [4] (some "back"),
          PhysGroup.mk 2 5 [5] (some "left"), PhysGroup.mk 2 6 [6] (some "right"),
          PhysGroup.mk 3 1 [1] (some "volume")],
        meshed := [], files := [], genOk := false }) := by
  simp [runCube, create_cube_mesh]

theorem radians30 : math.radians 30 = Real.pi / 6 := by
  unfold math.radians; ring

theorem tan30_as_real : math.tan (math.radians 30) = Real.tan (Real.pi / 6) := by
  rw [radians30]; rfl

theorem tan30_eq : math.tan (math.radians 30) = 1 / Real.sqrt 3 := by
  rw [tan30_as_real]; exact Real.tan_pi_div_six

theorem sqrt3_pos : 0 < Real.sqrt 3 := Real.sqrt_pos.mpr (by norm_num)

theorem sqrt3_lt_two : Real.sqrt 3 < 2 := by
  nlinarith [Real.sq_sqrt (show (0:ℝ) ≤ 3 by norm_num), Real.sqrt_nonneg 3]

theorem one_le_sqrt3 : 1 ≤ Real.sqrt 3 := by
  nlinarith [Real.sq_sqrt (show (0:ℝ) ≤ 3 by norm_num), Real.sqrt_nonneg 3]

theorem tan30_pos : 0 < math.tan (math.radians 30) := by
  rw [tan30_eq]; positivity

theorem tan30_gt_half : 1 / 2 < math.tan (math.radians 30) := by
  rw [tan30_eq]
  exact one_div_lt_one_div_of_lt sqrt3_pos sqrt3_lt_two

theorem tan30_le_one : math.tan (math.radians 30) ≤ 1 := by
  rw [tan30_eq, div_le_one sqrt3_pos]
  exact one_le_sqrt3

/-- The two fracture endpoints of the fractured-rectangle builder, for
any mode: point 5 at `(0, cz − w·tan(30°)/2)` and point 6 at
`(w, cz + w·tan(30°)/2)` (third coordinate 0). -/
theorem frac_endpoints (fp : String) (w h s cz : ℝ) (mode : String) :
    (runFrac fp w h s cz mode true).2.pointAt 5 =
      some (Point.mk 5 0 (cz - w * Real.tan (Real.pi / 6) / 2) 0 s) ∧
    (runFrac fp w h s cz mode true).2.pointAt 6 =
      some (Point.mk 6 w (cz + w * Real.tan (Real.pi / 6) / 2) 0 s) := by
  have ht := tan30_as_real
  by_cases h1 : mode = "BC"
  · subst h1; rw [runFrac_BC_ok]
    exact ⟨by simp [GmshState.pointAt, findPoint, ht],
      by simp [GmshState.pointAt, findPoint, ht]⟩
  by_cases h2 : mode = "domain"
  · subst h2; rw [runFrac_domain_ok]
    exact ⟨by simp [GmshState.pointAt, findPoint, ht],
      by simp [GmshState.pointAt, findPoint, ht]⟩
  · rw [runFrac_other_ok fp w h s cz mode h1 h2]
    exact ⟨by simp [GmshState.pointAt, findPoint, ht],
      by simp [GmshState.pointAt, findPoint, ht]⟩

/-- C6: for every width `w`, center offset `z0 = cz` (and any height,
mesh size and mode), the fractured-rectangle builder places the left
fracture endpoint at `x = 0` with `y = cz − w·tan(30°)/2` and the right
one at `x = w` with `y = cz + w·tan(30°)/2`.  The 30° angle is a fixed
constant of the builder (it takes no angle parameter), as the statement's
universal quantification over all arguments shows. -/
theorem C6_frac_endpoint_formulas (fp : String) (w h s cz : ℝ) (mode : String) :
    (runFrac fp w h s cz mode true).2.pointAt 5 =
      some (Point.mk 5 0 (cz - w * Real.tan (Real.pi / 6) / 2) 0 s) ∧
    (runFrac fp w h s cz mode true).2.pointAt 6 =
      some (Point.mk 6 w (cz + w * Real.tan (Real.pi / 6) / 2) 0 s) :=
  frac_endpoints fp w h s cz mode

/-- C3 (counterexample): at `w = 2, h = 1, z0 = 0` the left fracture
endpoint has `y = −tan(30°) ≈ −0.577`, which lies strictly below the
rectangle's lower edge `y = z0 − h/2 = −1/2`, so the endpoints do NOT lie
on the left and right vertical edges of the rectangle for every valid
`(w, h)`, contrary to the claim. -/
theorem C3_counterexample :
    (runFrac "f" 2 1 1 0 "domain" true).2.pointAt 5 =
      some (Point.mk 5 0 (0 - 2 * Real.tan (Real.pi / 6) / 2) 0 1) ∧
    0 - 2 * Real.tan (Real.pi / 6) / 2 < 0 - 1 / 2 := by
  constructor
  · exact (frac_endpoints "f" 2 1 1 0 "domain").1
  · have hg := tan30_gt_half
    rw [tan30_as_real] at hg
    linarith

/-- C3 (amended): the fracture endpoints lie at `x = 0` and `x = w`,
offset by `± w·tan(30°)/2` from the vertical center `cz`; they lie within
the rectangle's vertical extent `[cz − h/2, cz + h/2]` under the
additional condition `w·tan(30°) ≤ h`, which does not hold for every
valid `(w, h)` (see the counterexample). -/
theorem C3_frac_endpoints_on_edges (fp : String) (w h s cz : ℝ) (mode : String)
    (hw : 0 < w) (hh : 0 < h)
    (hcond : w * Real.tan (Real.pi / 6) ≤ h) :
    (runFrac fp w h s cz mode true).2.pointAt 5 =
      some (Point.mk 5 0 (cz - w * Real.tan (Real.pi / 6) / 2) 0 s) ∧
    (runFrac fp w h s cz mode true).2.pointAt 6 =
      some (Point.mk 6 w (cz + w * Real.tan (Real.pi / 6) / 2) 0 s) ∧
    cz - h / 2 ≤ cz - w * Real.tan (Real.pi / 6) / 2 ∧
    cz - w * Real.tan (Real.pi / 6) / 2 ≤ cz + h / 2 ∧
    cz - h / 2 ≤ cz + w * Real.tan (Real.pi / 6) / 2 ∧
    cz + w * Real.tan (Real.pi / 6) / 2 ≤ cz + h / 2 := by
  have hT : 0 < Real.tan (Real.pi / 6) := by
    have := tan30_pos; rwa [tan30_as_real] at this
  have hwT : 0 < w * Real.tan (Real.pi / 6) := mul_pos hw hT
  obtain ⟨h5, h6⟩ := frac_endpoints fp w h s cz mode
  exact ⟨h5, h6, by linarith, by linarith, by linarith, by linarith⟩

/-- C3 (witness): the amended theorem applied at
`w = 1, h = 1, s = 1, z0 = 0`, mode `"domain"`, where
`1·tan(30°) ≤ 1` holds. -/
theorem C3_witness :
    (runFrac "f" 1 1 1 0 "domain" true).2.pointAt 5 =
      some (Point.mk 5 0 (0 - 1 * Real.tan (Real.pi / 6) / 2) 0 1) ∧
    (runFrac "f" 1 1 1 0 "domain" true).2.pointAt 6 =
      some (Point.mk 6 1 (0 + 1 * Real.tan (Real.pi / 6) / 2) 0 1) ∧
    0 - 1 / 2 ≤ 0 - 1 * Real.tan (Real.pi / 6) / 2 ∧
    0 - 1 * Real.tan (Real.pi / 6) / 2 ≤ 0 + 1 / 2 ∧
    0 - 1 / 2 ≤ 0 + 1 * Real.tan (Real.pi / 6) / 2 ∧
    0 + 1 * Real.tan (Real.pi / 6) / 2 ≤ 0 + 1 / 2 :=
  C3_frac_endpoints_on_edges "f" 1 1 1 0 "domain" (by norm_num) (by norm_num)
    (by rw [one_mul]; have := tan30_le_one; rwa [tan30_as_real] at this)

/-- C1 (counterexample): at `w = h = t = 1, s = 1, z0 = 0` the six curve
loops of the cube builder do NOT have the closed-shell property claimed:
edge 1 is referenced by `cl_bot` and `cl_front` both with sign `+1`, so
it does not appear with opposite signs in the two loops that use it. -/
theorem C1_counterexample :
    ¬ closedShell ((runCube "c" 1 1 1 1 0 true).2.curveLoops)
        [1, 2, 3, 4, 5, 6, 7, 8, 9, 10, 11, 12] ∧
    shellSigns ((runCube "c" 1 1 1 1 0 true).2.curveLoops) 1 = [1, 1] := by
  rw [runCube_ok]
  exact ⟨by decide, by decide⟩

/-- C1 (amended): for every valid `(w, h, t, s)`, each of the 12 edges is
referenced by exactly 2 of the 6 curve loops, but only the 6 edges
2, 3, 5, 8, 9, 11 are referenced with opposite signs in their two loops;
the 6 edges 1, 4, 6, 7, 10, 12 are referenced with the same sign in both
of their loops, so the loops as written do not satisfy the closed-shell
(outward-orientation) convention — the external OCC kernel reorients the
wires, which is why meshing still succeeds. -/
theorem C1_cube_edge_loops (fp : String) (w h t s cz : ℝ)
    (hw : 0 < w) (hh : 0 < h) (ht : 0 < t) (hs : 0 < s) :
    (∀ e ∈ ([1, 2, 3, 4, 5, 6, 7, 8, 9, 10, 11, 12] : List ℤ),
      (loopsUsing (runCube fp w h t s cz true).2.curveLoops e).length = 2) ∧
    (∀ e ∈ ([2, 3, 5, 8, 9, 11] : List ℤ),
      closedShellAt (runCube fp w h t s cz true).2.curveLoops e) ∧
    (∀ e ∈ ([1, 4, 6, 7, 10, 12] : List ℤ),
      ¬ closedShellAt (runCube fp w h t s cz true).2.curveLoops e) := by
  rw [runCube_ok]
  dsimp only
  exact ⟨by decide, by decide, by decide⟩

/-- C1 (witness): the amended theorem applied at
`w = h = t = 1, s = 1, z0 = 0`. -/
theorem C1_witness :
    (∀ e ∈ ([1, 2, 3, 4, 5, 6, 7, 8, 9, 10, 11, 12] : List ℤ),
      (loopsUsing (runCube "c" 1 1 1 1 0 true).2.curveLoops e).length = 2) ∧
    (∀ e ∈ ([2, 3, 5, 8, 9, 11] : List ℤ),
      closedShellAt (runCube "c" 1 1 1 1 0 true).2.curveLoops e) ∧
    (∀ e ∈ ([1, 4, 6, 7, 10, 12] : List ℤ),
      ¬ closedShellAt (runCube "c" 1 1 1 1 0 true).2.curveLoops e) :=
  C1_cube_edge_loops "c" 1 1 1 1 0 (by norm_num) (by norm_num) (by norm_num)
    (by norm_num)

/-- C2 (counterexample): at `w = −1` (the spec's invalid scenario), with
`h = 1, s = 1/10`, the rectangle builder does NOT fail with
`InvalidParameter`, builds all 4 points, and writes the mesh file —
contrary to the claim that the call fails before any geometry is built
and that no file is produced. -/
theorem C2_counterexample :
    (runRect "rect" (-1) 1 (1/10) 0 true).1 = Except.ok () ∧
    (runRect "rect" (-1) 1 (1/10) 0 true).1 ≠
      Except.error GmshError.invalidParameter ∧
    (runRect "rect" (-1) 1 (1/10) 0 true).2.points.length = 4 ∧
    (runRect "rect" (-1) 1 (1/10) 0 true).2.files = ["rect" ++ ".msh"] := by
  rw [runRect_ok]
  exact ⟨rfl, by simp, rfl, rfl⟩

/-- C2 (amended): the rectangle builder performs no parameter validation
at all: for every `(w, h, s)` — non-positive or not — it builds the full
4-point geometry, returns success when the engine succeeds, and writes
the mesh file; no `InvalidParameter` failure exists in the code.  (In
particular the claim's second half holds: for positive parameters the
call never fails on parameters.) -/
theorem C2_no_parameter_validation (fp : String) (w h s cz : ℝ) :
    (runRect fp w h s cz true).1 = Except.ok () ∧
    (runRect fp w h s cz true).1 ≠ Except.error GmshError.invalidParameter ∧
    (runRect fp w h s cz true).2.points.length = 4 ∧
    (runRect fp w h s cz true).2.files = [fp ++ ".msh"] := by
  rw [runRect_ok]
  exact ⟨rfl, by simp, rfl, rfl⟩

/-- C4: for a mode string other than `"domain"` and `"BC"` (here
`"typo"`, at `w = h = s = 1, z0 = 0`) the fractured-rectangle builder
does NOT fail with `InvalidParameter`: it silently builds the geometry,
creates no physical group at all, and still writes the mesh file.  This
exhibits the divergence between the code and the claim (which the spec
itself flags as the intended `InvalidParameter` failure). -/
theorem C4_unknown_mode_silently_untagged :
    (runFrac "f" 1 1 1 0 "typo" true).1 = Except.ok () ∧
    (runFrac "f" 1 1 1 0 "typo" true).1 ≠
      Except.error GmshError.invalidParameter ∧
    (runFrac "f" 1 1 1 0 "typo" true).2.physicals = [] ∧
    (runFrac "f" 1 1 1 0 "typo" true).2.files = ["f" ++ ".msh"] := by
  rw [runFrac_other_ok "f" 1 1 1 0 "typo" (by decide) (by decide)]
  exact ⟨rfl, by simp, rfl, rfl⟩

/-- C5 (counterexample): when the engine fails during mesh generation
(at `w = h = s = 1, z0 = 0`), the error does propagate and no file is
written, but the global engine session is NOT released: the builder never
reaches `gmsh.finalize` on the failure path, so the engine is still on
after the call — contrary to the claim that the session is released on
every exit path. -/
theorem C5_counterexample :
    (runRect "r" 1 1 1 0 false).1 = Except.error GmshError.engineFailure ∧
    (runRect "r" 1 1 1 0 false).2.files = [] ∧
    (runRect "r" 1 1 1 0 false).2.engineOn = true := by
  rw [runRect_fail]
  exact ⟨rfl, rfl, rfl⟩

/-- C5 (amended): for every parameter set, an engine failure during mesh
generation propagates as `engineFailure` and no output file is written
(so no partial output exists), but `gmsh.finalize` is only executed on
the success path: after a failing call the global engine session is still
on, while after a successful call it is off.  This holds for both the
rectangle and the prism builder. -/
theorem C5_failure_paths (fp : String) (w h t s cz : ℝ) :
    (runRect fp w h s cz false).1 = Except.error GmshError.engineFailure ∧
    (runRect fp w h s cz false).2.files = [] ∧
    (runRect fp w h s cz false).2.engineOn = true ∧
    (runRect fp w h s cz true).2.engineOn = false ∧
    (runCube fp w h t s cz false).1 = Except.error GmshError.engineFailure ∧
    (runCube fp w h t s cz false).2.files = [] ∧
    (runCube fp w h t s cz false).2.engineOn = true ∧
    (runCube fp w h t s cz true).2.engineOn = false := by
  rw [runRect_fail, runRect_ok, runCube_fail, runCube_ok]
  exact ⟨rfl, rfl, rfl, rfl, rfl, rfl, rfl, rfl⟩

/-- C7: for every input (any parameters, any mode), the
fractured-rectangle builder creates exactly two curve loops —
`[l1, l2, −l7, l6]` and `[l4, l5, l7, l3]` — and exactly two plane
surfaces, one per loop; the shared fracture edge `l7 = 7` is referenced
by the first loop with sign `−1` and by the second with sign `+1`, i.e.
with opposite signs. -/
theorem C7_frac_two_loops_opposite_fracture (fp : String) (w h s cz : ℝ)
    (mode : String) :
    (runFrac fp w h s cz mode true).2.curveLoops =
      [CurveLoop.mk 1 [1, 2, -7, 6], CurveLoop.mk 2 [4, 5, 7, 3]] ∧
    (runFrac fp w h s cz mode true).2.surfaces =
      [Surface.mk 1 [1], Surface.mk 2 [2]] ∧
    loopSigns (CurveLoop.mk 1 [1, 2, -7, 6]) 7 = [-1] ∧
    loopSigns (CurveLoop.mk 2 [4, 5, 7, 3]) 7 = [1] ∧
    shellSigns [CurveLoop.mk 1 [1, 2, -7, 6], CurveLoop.mk 2 [4, 5, 7, 3]] 7 =
      [-1, 1] := by
  by_cases h1 : mode = "BC"
  · subst h1; rw [runFrac_BC_ok]
    exact ⟨rfl, rfl, by decide, by decide, by decide⟩
  by_cases h2 : mode = "domain"
  · subst h2; rw [runFrac_domain_ok]
    exact ⟨rfl, rfl, by decide, by decide, by decide⟩
  · rw [runFrac_other_ok fp w h s cz mode h1 h2]
    exact ⟨rfl, rfl, by decide, by decide, by decide⟩

/-- C8: in all three builders (for every parameter set and every mode),
every curve loop passed to a plane-surface construction closes
topologically: traversing its signed edges in order, the end point of
each signed edge is the start point of the next, and the last returns to
the first. -/
theorem C8_all_loops_close (fp : String) (w h t s cz : ℝ) (mode : String) :
    (∀ L ∈ (runRect fp w h s cz true).2.curveLoops,
      loopCloses (runRect fp w h s cz true).2.lines L = true) ∧
    (∀ L ∈ (runFrac fp w h s cz mode true).2.curveLoops,
      loopCloses (runFrac fp w h s cz mode true).2.lines L = true) ∧
    (∀ L ∈ (runCube fp w h t s cz true).2.curveLoops,
      loopCloses (runCube fp w h t s cz true).2.lines L = true) := by
  refine ⟨?_, ?_, ?_⟩
  · rw [runRect_ok]; dsimp only; decide
  · by_cases h1 : mode = "BC"
    · subst h1; rw [runFrac_BC_ok]; dsimp only; decide
    by_cases h2 : mode = "domain"
    · subst h2; rw [runFrac_domain_ok]; dsimp only; decide
    · rw [runFrac_other_ok fp w h s cz mode h1 h2]; dsimp only; decide
  · rw [runCube_ok]; dsimp only; decide

/-- C9: for every valid `(w, h, s)` with `w, h, s > 0`, the rectangle
builder produces exactly 4 points, the 4 edges `1→2, 2→3, 3→4, 4→1`, one
closed curve loop `[1, 2, 3, 4]`, one plane surface, and physical groups
`domain` (dimension 2, covering the face) and `top`, `right`, `bottom`,
`left` (dimension 1, covering edges 1–4 in traversal order); at
`w = 2, h = 1, z0 = 0` the points are
`(0, 0.5), (2, 0.5), (2, −0.5), (0, −0.5)` and the `top` edge joins
`(0, 0.5)` to `(2, 0.5)`. -/
theorem C9_rectangle_entities_and_tags (fp : String) (w h s cz : ℝ)
    (hw : 0 < w) (hh : 0 < h) (hs : 0 < s) :
    (runRect fp w h s cz true).2.points.length = 4 ∧
    (runRect fp w h s cz true).2.lines =
      [Line.mk 1 1 2, Line.mk 2 2 3, Line.mk 3 3 4, Line.mk 4 4 1] ∧
    (runRect fp w h s cz true).2.curveLoops = [CurveLoop.mk 1 [1, 2, 3, 4]] ∧
    loopCloses (runRect fp w h s cz true).2.lines
      (CurveLoop.mk 1 [1, 2, 3, 4]) = true ∧
    (runRect fp w h s cz true).2.surfaces = [Surface.mk 1 [1]] ∧
    (runRect fp w h s cz true).2.physicals =
      [PhysGroup.mk 2 1 [1] (some "domain"), PhysGroup.mk 1 1 [1] (some "top"),
       PhysGroup.mk 1 2 [2] (some "right"), PhysGroup.mk 1 3 [3] (some "bottom"),
       PhysGroup.mk 1 4 [4] (some "left")] ∧
    (runRect fp 2 1 s 0 true).2.points =
      [Point.mk 1 0 (1/2) 0 s, Point.mk 2 2 (1/2) 0 s,
       Point.mk 3 2 (-(1/2)) 0 s, Point.mk 4 0 (-(1/2)) 0 s] := by
  rw [runRect_ok fp w h s cz, runRect_ok fp 2 1 s 0]
  refine ⟨rfl, rfl, rfl, ?_, rfl, rfl, ?_⟩
  · dsimp only; decide
  · norm_num

/-- C9 (witness): the theorem applied at the spec's example scenario
`w = 2, h = 1, s = 1/10` (with `z0 = 0`). -/
theorem C9_witness :
    (runRect "r" 2 1 (1/10) 0 true).2.points.length = 4 ∧
    (runRect "r" 2 1 (1/10) 0 true).2.lines =
      [Line.mk 1 1 2, Line.mk 2 2 3, Line.mk 3 3 4, Line.mk 4 4 1] ∧
    (runRect "r" 2 1 (1/10) 0 true).2.curveLoops = [CurveLoop.mk 1 [1, 2, 3, 4]] ∧
    loopCloses (runRect "r" 2 1 (1/10) 0 true).2.lines
      (CurveLoop.mk 1 [1, 2, 3, 4]) = true ∧
    (runRect "r" 2 1 (1/10) 0 true).2.surfaces = [Surface.mk 1 [1]] ∧
    (runRect "r" 2 1 (1/10) 0 true).2.physicals =
      [PhysGroup.mk 2 1 [1] (some "domain"), PhysGroup.mk 1 1 [1] (some "top"),
       PhysGroup.mk 1 2 [2] (some "right"), PhysGroup.mk 1 3 [3] (some "bottom"),
       PhysGroup.mk 1 4 [4] (some "left")] ∧
    (runRect "r" 2 1 (1/10) 0 true).2.points =
      [Point.mk 1 0 (1/2) 0 (1/10), Point.mk 2 2 (1/2) 0 (1/10),
       Point.mk 3 2 (-(1/2)) 0 (1/10), Point.mk 4 0 (-(1/2)) 0 (1/10)] :=
  C9_rectangle_entities_and_tags "r" 2 1 (1/10) 0 (by norm_num) (by norm_num)
    (by norm_num)

/-- C10: the optional center offset `center_z = cz` acts on different
axes depending on the builder: in the two 2D builders every point has
third (z) coordinate exactly 0 and `cz` shifts the y-coordinates (the
corners of both 2D builders lie at `y = cz ± h/2` and the fracture
endpoints at `y = cz ∓ w·tan(30°)/2`), while in the prism builder
`cz` shifts the z-coordinates (the two point layers lie at
`z = cz ± t/2`) and the y-coordinates are the unshifted `0` and `h`. -/
theorem C10_center_offset_axes (fp : String) (w h t s cz : ℝ) (mode : String) :
    (∀ p ∈ (runRect fp w h s cz true).2.points,
      p.z = 0 ∧ (p.y = cz + h / 2 ∨ p.y = cz - h / 2)) ∧
    (∀ p ∈ (runFrac fp w h s cz mode true).2.points,
      p.z = 0 ∧ (p.y = cz + h / 2 ∨ p.y = cz - h / 2 ∨
        p.y = cz - w * Real.tan (Real.pi / 6) / 2 ∨
        p.y = cz + w * Real.tan (Real.pi / 6) / 2)) ∧
    (∀ p ∈ (runCube fp w h t s cz true).2.points,
      (p.z = cz - t / 2 ∨ p.z = cz + t / 2) ∧ (p.y = 0 ∨ p.y = h)) := by
  refine ⟨?_, ?_, ?_⟩
  · rw [runRect_ok]; intro p hp; fin_cases hp <;> simp
  · by_cases h1 : mode = "BC"
    · subst h1; rw [runFrac_BC_ok]
      intro p hp; fin_cases hp <;> simp [tan30_as_real]
    by_cases h2 : mode = "domain"
    · subst h2; rw [runFrac_domain_ok]
      intro p hp; fin_cases hp <;> simp [tan30_as_real]
    · rw [runFrac_other_ok fp w h s cz mode h1 h2]
      intro p hp; fin_cases hp <;> simp [tan30_as_real]
  · rw [runCube_ok]; intro p hp; fin_cases hp <;> simp
